import Mathlib

/-!
Formal model of the render core of the `heart-animation` page.

The JavaScript core is embedded shallowly: JS numbers become rationals,
`THREE.Vector3` / `THREE.Color` become record types, the per-frame loops
become structural recursion over lists, and the simplex-noise generator is
kept abstract as a function parameter `noise4D`.  The repository contains
two variants of the main module (`src/unnamed/part_000` and
`src/unnamed/part_001`) plus a rebuilt `src/assets/js/main.js`; the
variant-specific functions live in the namespaces `Part000`, `Part001`
and `MainJs`.
-/

namespace HeartAnim

/-- Signature of `SimplexNoise.noise4D`: a pure function of three spatial
coordinates and one time/seed coordinate. -/
abbrev Noise4D : Type := ℚ → ℚ → ℚ → ℚ → ℚ

/-- Model of `THREE.Vector3` as used by the core math. -/
structure Vec3 where
  x : ℚ
  y : ℚ
  z : ℚ
  deriving DecidableEq

/-- Model of `THREE.Color`: one red, green and blue channel. -/
structure ColorRGB where
  r : ℚ
  g : ℚ
  b : ℚ
  deriving DecidableEq

/-- Model of `Vector3.prototype.multiplyScalar` (combined with `clone`):
every component is multiplied by the same scalar. -/
def Vec3.multiplyScalar (v : Vec3) (s : ℚ) : Vec3 :=
  ⟨v.x * s, v.y * s, v.z * s⟩

/-- `CONFIG.NOISE_SCALE` (`1.5`). -/
def NOISE_SCALE : ℚ := 3/2

/-- `CONFIG.NOISE_FREQUENCY` (`500`). -/
def NOISE_FREQUENCY : ℚ := 500

/-- `CONFIG.NOISE_AMPLITUDE` (`0.15`). -/
def NOISE_AMPLITUDE : ℚ := 3/20

/-- `CONFIG.MAX_Z` (`0.23`). -/
def MAX_Z : ℚ := 23/100

/-- `CONFIG.RATE_Z` (`0.5`). -/
def RATE_Z : ℚ := 1/2

/-- `CONFIG.BEAT_MAX_VALUE` (`0.5`). -/
def BEAT_MAX_VALUE : ℚ := 1/2

/-- `CONFIG.PARTICLE_RANDOM_FACTOR` (`0.03`). -/
def PARTICLE_RANDOM_FACTOR : ℚ := 3/100

/-- `CONFIG.FRAME_SKIP_THRESHOLD` (`16` milliseconds). -/
def FRAME_SKIP_THRESHOLD : ℚ := 16

/-- Precomputed constant `MAX_Z_RATE_Z = CONFIG.MAX_Z * CONFIG.RATE_Z`. -/
def MAX_Z_RATE_Z : ℚ := MAX_Z * RATE_Z

/-- Precomputed constant
`NOISE_SCALE_AMPLITUDE = CONFIG.NOISE_SCALE * CONFIG.NOISE_AMPLITUDE`. -/
def NOISE_SCALE_AMPLITUDE : ℚ := NOISE_SCALE * NOISE_AMPLITUDE

/-- The shared beat object `this.beat = { a: 0 }` whose field `a` is animated
by the GSAP timeline. -/
structure BeatCell where
  a : ℚ
  deriving DecidableEq

/-- Per-particle state of class `SparkPoint`: the sampled surface point
`pos`, the palette colour `color`, the jitter scalar `rand`, and the two
candidate display points `one` and `two`.  In the JS source `one` and `two`
are initialised to `null` in the constructor and are (re)assigned by every
call to `update` before any read, so they are modelled as plain vectors. -/
structure SparkPoint where
  pos : Vec3
  color : ColorRGB
  rand : ℚ
  one : Vec3
  two : Vec3
  deriving DecidableEq

/-- Result of one pass of `updateParticles`: the sparks with their refreshed
candidate points, and the packed flat position/colour buffers.  The two
lists model exactly the prefixes `positions.subarray(0, posIdx)` and
`colors.subarray(0, colorIdx)` handed to the renderer. -/
structure PackResult where
  spikes : List SparkPoint
  positions : List ℚ
  colors : List ℚ
  deriving DecidableEq

namespace Part000

/-- `SparkPoint.update` of `src/unnamed/part_000` (lines 1450-1473). -/
def SparkPoint.update (noise4D : Noise4D) (s : SparkPoint) (beat : BeatCell) :
    SparkPoint :=
  let noise := noise4D (s.pos.x * 1) (s.pos.y * 1) (s.pos.z * 1) (1/10) + 3/2
  let noise2 := noise4D (s.pos.x * NOISE_FREQUENCY) (s.pos.y * NOISE_FREQUENCY)
    (s.pos.z * NOISE_FREQUENCY) 1 + 1
  { s with
    one := s.pos.multiplyScalar (101/100 + noise * NOISE_SCALE_AMPLITUDE * beat.a)
    two := s.pos.multiplyScalar (101/100 + noise2 * NOISE_SCALE_AMPLITUDE * beat.a) }

/-- `HeartAnimation.updateParticles` of `src/unnamed/part_000`
(lines 1181-1227): for every spark, refresh it via `SparkPoint.update`, then
append the first candidate `one` when `MAX_Z_RATE_Z + rand > one.z` and
`one.z > -MAX_Z_RATE_Z - rand`, and append the second candidate `two` when
`MAX_Z_RATE_Z + rand * 2 > one.z` and `one.z > -MAX_Z_RATE_Z - rand * 2`
(the source tests `one.z` in both branches). -/
def updateParticles (noise4D : Noise4D) (beat : BeatCell) :
    List SparkPoint → PackResult
  | [] => ⟨[], [], []⟩
  | spike :: rest =>
    let s := SparkPoint.update noise4D spike beat
    let r := updateParticles noise4D beat rest
    let layer1 : List ℚ × List ℚ :=
      if MAX_Z_RATE_Z + s.rand > s.one.z ∧ s.one.z > -MAX_Z_RATE_Z - s.rand then
        ([s.one.x, s.one.y, s.one.z], [s.color.r, s.color.g, s.color.b])
      else ([], [])
    let layer2 : List ℚ × List ℚ :=
      if MAX_Z_RATE_Z + s.rand * 2 > s.one.z ∧ s.one.z > -MAX_Z_RATE_Z - s.rand * 2 then
        ([s.two.x, s.two.y, s.two.z], [s.color.r, s.color.g, s.color.b])
      else ([], [])
    ⟨s :: r.spikes, layer1.1 ++ layer2.1 ++ r.positions,
      layer1.2 ++ layer2.2 ++ r.colors⟩

/-- `HeartAnimation.updateHeartGeometry` of `src/unnamed/part_000`
(lines 1229-1256): every live vertex is the rest vertex multiplied by
`scale = (noise4D(x*S, y*S, z*S, time*0.000625) + 1) * NOISE_SCALE_AMPLITUDE * beat.a`. -/
def updateHeartGeometry (noise4D : Noise4D) (originHeart : List Vec3)
    (time : ℚ) (beatCell : BeatCell) : List Vec3 :=
  let beat := beatCell.a
  let timeFactor := time * (1/1600)
  originHeart.map fun v =>
    let noise :=
      noise4D (v.x * NOISE_SCALE) (v.y * NOISE_SCALE) (v.z * NOISE_SCALE)
        timeFactor + 1
    let scale := noise * NOISE_SCALE_AMPLITUDE * beat
    ⟨v.x * scale, v.y * scale, v.z * scale⟩

end Part000

namespace Part001

/-- `SparkPoint.update` of `src/unnamed/part_001` (lines 1329-1352).  The
first candidate `one` is computed exactly as in `part_000`; the second
candidate uses the divergent formula
`1 + noise2 * (beat.a + 0.3) - beat.a * 1.2`. -/
def SparkPoint.update (noise4D : Noise4D) (s : SparkPoint) (beat : BeatCell) :
    SparkPoint :=
  let noise := noise4D (s.pos.x * 1) (s.pos.y * 1) (s.pos.z * 1) (1/10) + 3/2
  let noise2 := noise4D (s.pos.x * NOISE_FREQUENCY) (s.pos.y * NOISE_FREQUENCY)
    (s.pos.z * NOISE_FREQUENCY) 1 + 1
  { s with
    one := s.pos.multiplyScalar (101/100 + noise * NOISE_SCALE_AMPLITUDE * beat.a)
    two := s.pos.multiplyScalar (1 + noise2 * (beat.a + 3/10) - beat.a * (6/5)) }

/-- `HeartAnimation.updateParticles` of `src/unnamed/part_001`
(lines 1120-1166); textually identical to the `part_000` loop, but it calls
this variant's `SparkPoint.update`. -/
def updateParticles (noise4D : Noise4D) (beat : BeatCell) :
    List SparkPoint → PackResult
  | [] => ⟨[], [], []⟩
  | spike :: rest =>
    let s := SparkPoint.update noise4D spike beat
    let r := updateParticles noise4D beat rest
    let layer1 : List ℚ × List ℚ :=
      if MAX_Z_RATE_Z + s.rand > s.one.z ∧ s.one.z > -MAX_Z_RATE_Z - s.rand then
        ([s.one.x, s.one.y, s.one.z], [s.color.r, s.color.g, s.color.b])
      else ([], [])
    let layer2 : List ℚ × List ℚ :=
      if MAX_Z_RATE_Z + s.rand * 2 > s.one.z ∧ s.one.z > -MAX_Z_RATE_Z - s.rand * 2 then
        ([s.two.x, s.two.y, s.two.z], [s.color.r, s.color.g, s.color.b])
      else ([], [])
    ⟨s :: r.spikes, layer1.1 ++ layer2.1 ++ r.positions,
      layer1.2 ++ layer2.2 ++ r.colors⟩

/-- `HeartAnimation.updateHeartGeometry` of `src/unnamed/part_001`
(lines 1168-1196); identical to the `part_000` variant except for the time
scale `time * 0.0005`. -/
def updateHeartGeometry (noise4D : Noise4D) (originHeart : List Vec3)
    (time : ℚ) (beatCell : BeatCell) : List Vec3 :=
  let beat := beatCell.a
  let timeFactor := time * (1/2000)
  originHeart.map fun v =>
    let noise :=
      noise4D (v.x * NOISE_SCALE) (v.y * NOISE_SCALE) (v.z * NOISE_SCALE)
        timeFactor + 1
    let scale := noise * NOISE_SCALE_AMPLITUDE * beat
    ⟨v.x * scale, v.y * scale, v.z * scale⟩

end Part001

namespace MainJs

/-- Heart-geometry portion of `HeartAnimation.animate` in
`src/assets/js/main.js` (lines 267-277): the loop computes
`n = noise4D(o.x*1.5, o.y*1.5, o.z*1.5, now*0.000625)` and sets every live
vertex to the rest vertex times `scale = 1 + n * (0.15 * beat.a)`. -/
def updateHeartVertices (noise4D : Noise4D) (originHeart : List Vec3)
    (now : ℚ) (beat : BeatCell) : List Vec3 :=
  let time := now * (1/1600)
  originHeart.map fun v =>
    let n := noise4D (v.x * (3/2)) (v.y * (3/2)) (v.z * (3/2)) time
    let scale := 1 + n * ((3/20) * beat.a)
    ⟨v.x * scale, v.y * scale, v.z * scale⟩

end MainJs

/-- State touched by `HeartAnimation.setupAnimation` (identical in
`part_000` lines 660-682 and `part_001` lines 593-615): the shared beat cell
and whether a GSAP timeline driving it was created. -/
structure AnimState where
  beat : BeatCell
  hasTimeline : Bool
  deriving DecidableEq

/-- Model of the `HeartAnimation` constructor (`this.beat = { a: 0 }`)
followed by `setupAnimation`: with `CONFIG.REDUCED_MOTION` set, the beat is
assigned `CONFIG.BEAT_MAX_VALUE * 0.3` once and no timeline is created;
otherwise the looping GSAP timeline is created and the beat stays at its
initial value until the timeline first ticks. -/
def setupAnimation (reducedMotion : Bool) : AnimState :=
  if reducedMotion then ⟨⟨BEAT_MAX_VALUE * (3/10)⟩, false⟩
  else ⟨⟨0⟩, true⟩

/-- One scheduler tick for the beat cell: the GSAP timeline, when it exists,
is the only writer of `beat.a`, modelled by an arbitrary oscillator trace
`osc`; with no timeline, nothing in the program writes the beat. -/
def timelineTick (osc : ℕ → ℚ) (n : ℕ) (st : AnimState) : AnimState :=
  if st.hasTimeline then { st with beat := ⟨osc n⟩ } else st

/-- Run `n` simulated frames of beat updates. -/
def runFrames (osc : ℕ → ℚ) : ℕ → AnimState → AnimState
  | 0, st => st
  | n + 1, st => runFrames osc n (timelineTick osc n st)

/-- State read and written by `updateHeartGeometry`: the immutable rest
buffer `originHeart` and the live vertex buffer
`heart.geometry.attributes.position.array`. -/
structure HeartGeomState where
  originHeart : List Vec3
  vs : List Vec3
  deriving DecidableEq

namespace Part000

/-- `updateHeartGeometry` of `part_000` as a state transformer: it reads
only `originHeart` and overwrites the live buffer `vs`. -/
def updateHeartGeometryS (noise4D : Noise4D) (st : HeartGeomState)
    (time : ℚ) (beatCell : BeatCell) : HeartGeomState :=
  { st with vs := updateHeartGeometry noise4D st.originHeart time beatCell }

/-- State of the `requestAnimationFrame` loop installed by
`HeartAnimation.startAnimation` (`part_000` lines 684-718), together with
the buffers mutated by `render` (lines 1162-1179). -/
structure LoopState where
  isAnimating : Bool
  heartLoaded : Bool
  hidden : Bool
  lastRenderTime : ℚ
  beat : BeatCell
  spikes : List SparkPoint
  positions : List ℚ
  colors : List ℚ
  originHeart : List Vec3
  vs : List Vec3
  deriving DecidableEq

/-- `HeartAnimation.render` of `part_000`: it returns immediately when the
animation is stopped, the heart mesh is absent, or the page is hidden;
otherwise it runs `updateParticles` (which refreshes the sparks and packs
the output buffers) and `updateHeartGeometry`.  The trackball-controls and
WebGL draw calls touch no modelled state. -/
def render (noise4D : Noise4D) (st : LoopState) (time : ℚ) : LoopState :=
  if !st.isAnimating || !st.heartLoaded then st
  else if st.hidden then st
  else
    let packed := updateParticles noise4D st.beat st.spikes
    { st with
      spikes := packed.spikes
      positions := packed.positions
      colors := packed.colors
      vs := updateHeartGeometry noise4D st.originHeart time st.beat }

/-- The `animate` callback created by `HeartAnimation.startAnimation`
(`part_000` lines 684-718): it bails out when `isAnimating` is false, skips
the frame entirely when `currentTime - lastRenderTime` is below
`FRAME_SKIP_THRESHOLD`, and otherwise calls `render` and then updates
`lastRenderTime`; `frameOk` models whether the render body completed
without throwing (on a throw, `isAnimating` is set to false and the
timestamp is left unchanged). -/
def animate (noise4D : Noise4D) (frameOk : Bool) (st : LoopState)
    (currentTime : ℚ) : LoopState :=
  if !st.isAnimating then st
  else
    let deltaTime := currentTime - st.lastRenderTime
    if deltaTime < FRAME_SKIP_THRESHOLD then st
    else if frameOk then
      { render noise4D st currentTime with lastRenderTime := currentTime }
    else { st with isAnimating := false }

end Part000

namespace Part001

/-- `updateHeartGeometry` of `part_001` as a state transformer: it reads
only `originHeart` and overwrites the live buffer `vs`. -/
def updateHeartGeometryS (noise4D : Noise4D) (st : HeartGeomState)
    (time : ℚ) (beatCell : BeatCell) : HeartGeomState :=
  { st with vs := updateHeartGeometry noise4D st.originHeart time beatCell }

end Part001

/-- Constantly-zero noise function, used to instantiate theorems at a
concrete input. -/
def zeroNoise : Noise4D := fun _ _ _ _ => 0

/-- Concrete spark used to exhibit the divergence of the two
`SparkPoint.update` variants. -/
def spark9 : SparkPoint := ⟨⟨1, 0, 0⟩, ⟨1, 1, 1⟩, 0, ⟨0, 0, 0⟩, ⟨0, 0, 0⟩⟩

/-- C3: in both source variants, `SparkPoint.update` computes the first
candidate as `one = pos * (1.01 + (n1 + 1.5) * K * beat.a)` where
`n1 = noise4D(pos.x, pos.y, pos.z, 0.1)` and `K` is the product of the
configured noise-scale and noise-amplitude constants; the right-hand side
depends only on the origin, the beat value and the noise function. -/
theorem C3_candidateNear_formula (noise4D : Noise4D) (beat : BeatCell)
    (s : SparkPoint) :
    (Part000.SparkPoint.update noise4D s beat).one
      = s.pos.multiplyScalar
        (101/100 + (noise4D s.pos.x s.pos.y s.pos.z (1/10) + 3/2)
          * (NOISE_SCALE * NOISE_AMPLITUDE) * beat.a)
    ∧ (Part001.SparkPoint.update noise4D s beat).one
      = s.pos.multiplyScalar
        (101/100 + (noise4D s.pos.x s.pos.y s.pos.z (1/10) + 3/2)
          * (NOISE_SCALE * NOISE_AMPLITUDE) * beat.a) := by
  constructor <;>
    simp [Part000.SparkPoint.update, Part001.SparkPoint.update,
      NOISE_SCALE_AMPLITUDE, mul_one]

/-- C9: the two observed variants of `SparkPoint.update` agree on the first
candidate `one` for every input, but their second candidates `two` differ,
witnessed at origin `(1,0,0)`, beat `0`, zero noise. -/
theorem C9_variants_diverge_on_two :
    (Part000.SparkPoint.update zeroNoise spark9 ⟨0⟩).two
        ≠ (Part001.SparkPoint.update zeroNoise spark9 ⟨0⟩).two
    ∧ ∀ (noise4D : Noise4D) (beat : BeatCell) (s : SparkPoint),
        (Part000.SparkPoint.update noise4D s beat).one
          = (Part001.SparkPoint.update noise4D s beat).one := by
  refine ⟨?_, fun noise4D beat s => rfl⟩
  simp only [Ne, Part000.SparkPoint.update, Part001.SparkPoint.update, spark9,
    zeroNoise, Vec3.multiplyScalar, Vec3.mk.injEq]
  norm_num [NOISE_SCALE_AMPLITUDE, NOISE_SCALE, NOISE_AMPLITUDE]

/-- C10: the candidate points computed by `SparkPoint.update` are
independent of the spark's `rand` jitter in both variants — two sparks with
the same origin but different `rand` get identical `one` and `two` — and
`update` leaves `pos`, `color` and `rand` unchanged. -/
theorem C10_rand_noninterference (noise4D : Noise4D) (beat : BeatCell)
    (s1 s2 : SparkPoint) (hpos : s1.pos = s2.pos) (_hrand : s1.rand ≠ s2.rand) :
    ((Part000.SparkPoint.update noise4D s1 beat).one
        = (Part000.SparkPoint.update noise4D s2 beat).one
      ∧ (Part000.SparkPoint.update noise4D s1 beat).two
        = (Part000.SparkPoint.update noise4D s2 beat).two)
    ∧ ((Part001.SparkPoint.update noise4D s1 beat).one
        = (Part001.SparkPoint.update noise4D s2 beat).one
      ∧ (Part001.SparkPoint.update noise4D s1 beat).two
        = (Part001.SparkPoint.update noise4D s2 beat).two)
    ∧ ((Part000.SparkPoint.update noise4D s1 beat).pos = s1.pos
      ∧ (Part000.SparkPoint.update noise4D s1 beat).color = s1.color
      ∧ (Part000.SparkPoint.update noise4D s1 beat).rand = s1.rand)
    ∧ ((Part001.SparkPoint.update noise4D s1 beat).pos = s1.pos
      ∧ (Part001.SparkPoint.update noise4D s1 beat).color = s1.color
      ∧ (Part001.SparkPoint.update noise4D s1 beat).rand = s1.rand) := by
  refine ⟨⟨?_, ?_⟩, ⟨?_, ?_⟩, ⟨rfl, rfl, rfl⟩, ⟨rfl, rfl, rfl⟩⟩ <;>
    simp [Part000.SparkPoint.update, Part001.SparkPoint.update, hpos]

/-- First concrete spark for the C10 witness. -/
def sparkW1 : SparkPoint := ⟨⟨1, 2, 3⟩, ⟨1, 0, 0⟩, 0, ⟨0, 0, 0⟩, ⟨0, 0, 0⟩⟩

/-- Second concrete spark for the C10 witness: same origin and colour as
`sparkW1`, different `rand`. -/
def sparkW2 : SparkPoint := ⟨⟨1, 2, 3⟩, ⟨1, 0, 0⟩, 1/100, ⟨0, 0, 0⟩, ⟨0, 0, 0⟩⟩

/-- Witness for C10 at a concrete input: two sparks sharing the origin
`(1,2,3)` but with `rand` `0` and `0.01` get the same first candidate. -/
theorem C10_rand_noninterference_witness :
    (Part000.SparkPoint.update zeroNoise sparkW1 ⟨1⟩).one
      = (Part000.SparkPoint.update zeroNoise sparkW2 ⟨1⟩).one :=
  (C10_rand_noninterference zeroNoise ⟨1⟩ sparkW1 sparkW2 rfl
    (by norm_num [sparkW1, sparkW2])).1.1

/-- C5: the mesh displacement update is idempotent in both variants —
running `updateHeartGeometry` twice with the same `(time, beat)` pair over
the same rest mesh leaves the live buffer exactly as after one run, since
each run reads only `originHeart` and never the previous live contents. -/
theorem C5_mesh_update_idempotent (noise4D : Noise4D) (st : HeartGeomState)
    (time : ℚ) (beat : BeatCell) :
    Part000.updateHeartGeometryS noise4D
        (Part000.updateHeartGeometryS noise4D st time beat) time beat
      = Part000.updateHeartGeometryS noise4D st time beat
    ∧ Part001.updateHeartGeometryS noise4D
        (Part001.updateHeartGeometryS noise4D st time beat) time beat
      = Part001.updateHeartGeometryS noise4D st time beat :=
  ⟨rfl, rfl⟩

/-- C2 (amended): the two `updateHeartGeometry` variants scale every rest
vertex by `(noise4D(x*S, y*S, z*S, timeFactor) + 1) * S * A * beat` with no
further additive constant (their time factors are `time*0.000625` and
`time*0.0005`), while the `main.js` rebuild's `animate` loop instead scales
by `1 + noise4D(x*1.5, y*1.5, z*1.5, timeFactor) * (0.15 * beat)`, which
carries an additive constant term `1`. -/
theorem C2_amended_scale_formulas (noise4D : Noise4D) (originHeart : List Vec3)
    (time : ℚ) (beat : BeatCell) (i : ℕ) :
    (Part000.updateHeartGeometry noise4D originHeart time beat)[i]?
      = (originHeart[i]?).map (fun v =>
          v.multiplyScalar
            ((noise4D (v.x * NOISE_SCALE) (v.y * NOISE_SCALE) (v.z * NOISE_SCALE)
                (time * (1/1600)) + 1) * (NOISE_SCALE * NOISE_AMPLITUDE) * beat.a))
    ∧ (Part001.updateHeartGeometry noise4D originHeart time beat)[i]?
      = (originHeart[i]?).map (fun v =>
          v.multiplyScalar
            ((noise4D (v.x * NOISE_SCALE) (v.y * NOISE_SCALE) (v.z * NOISE_SCALE)
                (time * (1/2000)) + 1) * (NOISE_SCALE * NOISE_AMPLITUDE) * beat.a))
    ∧ (MainJs.updateHeartVertices noise4D originHeart time beat)[i]?
      = (originHeart[i]?).map (fun v =>
          v.multiplyScalar
            (1 + noise4D (v.x * (3/2)) (v.y * (3/2)) (v.z * (3/2))
                (time * (1/1600)) * ((3/20) * beat.a))) := by
  refine ⟨?_, ?_, ?_⟩ <;>
  · rcases h : originHeart[i]? with _ | v <;>
      simp [Part000.updateHeartGeometry, Part001.updateHeartGeometry,
        MainJs.updateHeartVertices, List.getElem?_map, h, Vec3.multiplyScalar,
        NOISE_SCALE_AMPLITUDE]

/-- C2 (counterexample): at rest vertex `(1,1,1)`, time `0`, beat `0` and
zero noise, the `main.js` vertex loop leaves the live vertex at `(1,1,1)`,
whereas the claimed scale `(noise + 1) * S * A * beat` would produce
`(0,0,0)`; so the claimed formula does not describe the `main.js` variant. -/
theorem C2_counterexample_mainjs_scale :
    MainJs.updateHeartVertices zeroNoise [⟨1, 1, 1⟩] 0 ⟨0⟩ = [⟨1, 1, 1⟩]
    ∧ Vec3.multiplyScalar ⟨1, 1, 1⟩
        ((zeroNoise ((1 : ℚ) * NOISE_SCALE) (1 * NOISE_SCALE) (1 * NOISE_SCALE)
            (0 * (1/1600)) + 1) * (NOISE_SCALE * NOISE_AMPLITUDE) * (0 : ℚ))
      = ⟨0, 0, 0⟩
    ∧ (⟨1, 1, 1⟩ : Vec3) ≠ ⟨0, 0, 0⟩ := by
  refine ⟨?_, ?_, ?_⟩
  · simp [MainJs.updateHeartVertices, zeroNoise]
  · simp [Vec3.multiplyScalar, zeroNoise]
  · simp only [Ne, Vec3.mk.injEq]
    norm_num

/-- C6: both `updateHeartGeometry` variants and the `main.js` vertex loop
write a live buffer of the same length as the rest buffer, and every live
vertex is the corresponding rest vertex multiplied by one common scalar
(pure radial scaling through the origin). -/
theorem C6_live_mesh_radial (noise4D : Noise4D) (originHeart : List Vec3)
    (time : ℚ) (beat : BeatCell) :
    (Part000.updateHeartGeometry noise4D originHeart time beat).length
        = originHeart.length
    ∧ (Part001.updateHeartGeometry noise4D originHeart time beat).length
        = originHeart.length
    ∧ (MainJs.updateHeartVertices noise4D originHeart time beat).length
        = originHeart.length
    ∧ (∀ i : ℕ, ∃ c : ℚ,
        (Part000.updateHeartGeometry noise4D originHeart time beat)[i]?
          = (originHeart[i]?).map (fun v => v.multiplyScalar c))
    ∧ (∀ i : ℕ, ∃ c : ℚ,
        (Part001.updateHeartGeometry noise4D originHeart time beat)[i]?
          = (originHeart[i]?).map (fun v => v.multiplyScalar c))
    ∧ (∀ i : ℕ, ∃ c : ℚ,
        (MainJs.updateHeartVertices noise4D originHeart time beat)[i]?
          = (originHeart[i]?).map (fun v => v.multiplyScalar c)) := by
  refine ⟨?_, ?_, ?_, ?_, ?_, ?_⟩
  · simp [Part000.updateHeartGeometry]
  · simp [Part001.updateHeartGeometry]
  · simp [MainJs.updateHeartVertices]
  · intro i
    rcases h : originHeart[i]? with _ | v
    · exact ⟨0, by simp [Part000.updateHeartGeometry, List.getElem?_map, h]⟩
    · exact ⟨(noise4D (v.x * NOISE_SCALE) (v.y * NOISE_SCALE) (v.z * NOISE_SCALE)
          (time * (1/1600)) + 1) * NOISE_SCALE_AMPLITUDE * beat.a,
        by simp [Part000.updateHeartGeometry, List.getElem?_map, h,
          Vec3.multiplyScalar]⟩
  · intro i
    rcases h : originHeart[i]? with _ | v
    · exact ⟨0, by simp [Part001.updateHeartGeometry, List.getElem?_map, h]⟩
    · exact ⟨(noise4D (v.x * NOISE_SCALE) (v.y * NOISE_SCALE) (v.z * NOISE_SCALE)
          (time * (1/2000)) + 1) * NOISE_SCALE_AMPLITUDE * beat.a,
        by simp [Part001.updateHeartGeometry, List.getElem?_map, h,
          Vec3.multiplyScalar]⟩
  · intro i
    rcases h : originHeart[i]? with _ | v
    · exact ⟨0, by simp [MainJs.updateHeartVertices, List.getElem?_map, h]⟩
    · exact ⟨1 + noise4D (v.x * (3/2)) (v.y * (3/2)) (v.z * (3/2))
          (time * (1/1600)) * ((3/20) * beat.a),
        by simp [MainJs.updateHeartVertices, List.getElem?_map, h,
          Vec3.multiplyScalar]⟩

/-- Helper: with no timeline present, no number of simulated frames changes
the animation state, since the timeline is the only writer of the beat. -/
theorem runFrames_noTimeline (osc : ℕ → ℚ) :
    ∀ (n : ℕ) (st : AnimState), st.hasTimeline = false →
      runFrames osc n st = st
  | 0, _, _ => rfl
  | n + 1, st, h => by
    rw [runFrames]
    have ht : timelineTick osc n st = st := by simp [timelineTick, h]
    rw [ht]
    exact runFrames_noTimeline osc n st h

/-- C7: with the reduced-motion preference active, `setupAnimation` sets the
beat once to `0.3 * BEAT_MAX_VALUE` and creates no timeline, and the beat
equals that value after any number of simulated frames under any oscillator
trace. -/
theorem C7_reduced_motion_constant_beat :
    (setupAnimation true).beat.a = BEAT_MAX_VALUE * (3/10)
    ∧ (setupAnimation true).hasTimeline = false
    ∧ ∀ (osc : ℕ → ℚ) (n : ℕ),
        (runFrames osc n (setupAnimation true)).beat.a
          = BEAT_MAX_VALUE * (3/10) := by
  refine ⟨rfl, rfl, fun osc n => ?_⟩
  rw [runFrames_noTimeline osc n _ rfl]
  rfl

/-- Noise function for the C1 counterexample: it returns `100` exactly when
the fourth coordinate is `1` (the seed the packer uses for the second noise
sample) and `0` otherwise. -/
def noiseC1 : Noise4D := fun _ _ _ w => if w = 1 then 100 else 0

/-- Spark for the C1 counterexample: origin `(0, 0, 0.05)`, jitter `0`. -/
def sparkC1 : SparkPoint := ⟨⟨0, 0, 1/20⟩, ⟨1, 0, 0⟩, 0, ⟨0, 0, 0⟩, ⟨0, 0, 0⟩⟩

/-- C1 (counterexample): for the spark `sparkC1` under `noiseC1` at beat
`1`, the packer appends the second candidate `two` to the positions buffer
(it occupies the three floats after the first candidate), even though
`two`'s own z coordinate lies outside the band
`(-MAX_Z_RATE_Z - 2*rand, MAX_Z_RATE_Z + 2*rand)`; hence the depth-band
test for the second candidate is not evaluated on `two.z`. -/
theorem C1_counterexample_two_appended_outside_band :
    (Part000.updateParticles noiseC1 ⟨1⟩ [sparkC1]).positions.drop 3
      = [(Part000.SparkPoint.update noiseC1 sparkC1 ⟨1⟩).two.x,
         (Part000.SparkPoint.update noiseC1 sparkC1 ⟨1⟩).two.y,
         (Part000.SparkPoint.update noiseC1 sparkC1 ⟨1⟩).two.z]
    ∧ ¬(-MAX_Z_RATE_Z - sparkC1.rand * 2
          < (Part000.SparkPoint.update noiseC1 sparkC1 ⟨1⟩).two.z
        ∧ (Part000.SparkPoint.update noiseC1 sparkC1 ⟨1⟩).two.z
          < MAX_Z_RATE_Z + sparkC1.rand * 2) := by
  constructor
  · norm_num [Part000.updateParticles, Part000.SparkPoint.update, sparkC1,
      noiseC1, Vec3.multiplyScalar, NOISE_SCALE_AMPLITUDE, NOISE_SCALE,
      NOISE_AMPLITUDE, MAX_Z_RATE_Z, MAX_Z, RATE_Z, NOISE_FREQUENCY]
  · norm_num [Part000.SparkPoint.update, sparkC1, noiseC1,
      Vec3.multiplyScalar, NOISE_SCALE_AMPLITUDE, NOISE_SCALE,
      NOISE_AMPLITUDE, MAX_Z_RATE_Z, MAX_Z, RATE_Z, NOISE_FREQUENCY]

/-- C1 (amended): in both variants of `updateParticles`, the second
candidate `two` is appended to the positions buffer if and only if the
z coordinate of the FIRST candidate `one` lies in the widened depth band
(`MAX_Z_RATE_Z + rand * 2 > one.z` and `one.z > -MAX_Z_RATE_Z - rand * 2`);
the part of the buffer after the first candidate's contribution is exactly
`[two.x, two.y, two.z]` when that test on `one.z` holds and empty
otherwise. -/
theorem C1_amended_second_test_on_one_z (noise4D : Noise4D) (beat : BeatCell)
    (spike : SparkPoint) :
    ((Part000.updateParticles noise4D beat [spike]).positions.drop
        (if MAX_Z_RATE_Z + (Part000.SparkPoint.update noise4D spike beat).rand
              > (Part000.SparkPoint.update noise4D spike beat).one.z
            ∧ (Part000.SparkPoint.update noise4D spike beat).one.z
              > -MAX_Z_RATE_Z - (Part000.SparkPoint.update noise4D spike beat).rand
          then 3 else 0)
      = if MAX_Z_RATE_Z + (Part000.SparkPoint.update noise4D spike beat).rand * 2
              > (Part000.SparkPoint.update noise4D spike beat).one.z
            ∧ (Part000.SparkPoint.update noise4D spike beat).one.z
              > -MAX_Z_RATE_Z - (Part000.SparkPoint.update noise4D spike beat).rand * 2
          then [(Part000.SparkPoint.update noise4D spike beat).two.x,
                (Part000.SparkPoint.update noise4D spike beat).two.y,
                (Part000.SparkPoint.update noise4D spike beat).two.z]
          else [])
    ∧ ((Part001.updateParticles noise4D beat [spike]).positions.drop
        (if MAX_Z_RATE_Z + (Part001.SparkPoint.update noise4D spike beat).rand
              > (Part001.SparkPoint.update noise4D spike beat).one.z
            ∧ (Part001.SparkPoint.update noise4D spike beat).one.z
              > -MAX_Z_RATE_Z - (Part001.SparkPoint.update noise4D spike beat).rand
          then 3 else 0)
      = if MAX_Z_RATE_Z + (Part001.SparkPoint.update noise4D spike beat).rand * 2
              > (Part001.SparkPoint.update noise4D spike beat).one.z
            ∧ (Part001.SparkPoint.update noise4D spike beat).one.z
              > -MAX_Z_RATE_Z - (Part001.SparkPoint.update noise4D spike beat).rand * 2
          then [(Part001.SparkPoint.update noise4D spike beat).two.x,
                (Part001.SparkPoint.update noise4D spike beat).two.y,
                (Part001.SparkPoint.update noise4D spike beat).two.z]
          else []) := by
  constructor <;>
  · simp only [Part000.updateParticles, Part001.updateParticles]
    split_ifs <;> simp_all

/-- Helper: the filled lengths of the two buffers packed by the `part_000`
packer agree, are multiples of 3, and are bounded by 6 per spark. -/
theorem part000_pack_length (noise4D : Noise4D) (beat : BeatCell) :
    ∀ spikes : List SparkPoint,
      (Part000.updateParticles noise4D beat spikes).positions.length
          = (Part000.updateParticles noise4D beat spikes).colors.length
        ∧ (Part000.updateParticles noise4D beat spikes).positions.length % 3 = 0
        ∧ (Part000.updateParticles noise4D beat spikes).positions.length
            ≤ 2 * 3 * spikes.length
  | [] => by simp [Part000.updateParticles]
  | spike :: rest => by
    obtain ⟨h1, h2, h3⟩ := part000_pack_length noise4D beat rest
    simp only [Part000.updateParticles, List.length_cons]
    split_ifs <;> simp [List.length_append] <;> omega

/-- Helper: the `part_001` packer satisfies the same length invariants. -/
theorem part001_pack_length (noise4D : Noise4D) (beat : BeatCell) :
    ∀ spikes : List SparkPoint,
      (Part001.updateParticles noise4D beat spikes).positions.length
          = (Part001.updateParticles noise4D beat spikes).colors.length
        ∧ (Part001.updateParticles noise4D beat spikes).positions.length % 3 = 0
        ∧ (Part001.updateParticles noise4D beat spikes).positions.length
            ≤ 2 * 3 * spikes.length
  | [] => by simp [Part001.updateParticles]
  | spike :: rest => by
    obtain ⟨h1, h2, h3⟩ := part001_pack_length noise4D beat rest
    simp only [Part001.updateParticles, List.length_cons]
    split_ifs <;> simp [List.length_append] <;> omega

/-- C4: after a full packer pass over any spark list, in both variants, the
filled lengths of the positions and colors buffers agree, are multiples of
3, and are at most `2 * 3 * N`; each examined spark grows the positions
buffer by exactly 0, 3 or 6 floats; and taking the filled-length prefix of
any larger backing buffer (the `subarray(0, posIdx)` exposed to the
renderer) returns exactly the floats written. -/
theorem C4_pack_lengths (noise4D : Noise4D) (beat : BeatCell)
    (spikes : List SparkPoint) :
    ((Part000.updateParticles noise4D beat spikes).positions.length
        = (Part000.updateParticles noise4D beat spikes).colors.length
      ∧ (Part000.updateParticles noise4D beat spikes).positions.length % 3 = 0
      ∧ (Part000.updateParticles noise4D beat spikes).positions.length
          ≤ 2 * 3 * spikes.length
      ∧ (∀ (spike : SparkPoint) (rest : List SparkPoint),
          (Part000.updateParticles noise4D beat (spike :: rest)).positions.length
              = (Part000.updateParticles noise4D beat rest).positions.length
            ∨ (Part000.updateParticles noise4D beat (spike :: rest)).positions.length
              = (Part000.updateParticles noise4D beat rest).positions.length + 3
            ∨ (Part000.updateParticles noise4D beat (spike :: rest)).positions.length
              = (Part000.updateParticles noise4D beat rest).positions.length + 6)
      ∧ ∀ pad : List ℚ,
          ((Part000.updateParticles noise4D beat spikes).positions ++ pad).take
              (Part000.updateParticles noise4D beat spikes).positions.length
            = (Part000.updateParticles noise4D beat spikes).positions)
    ∧ ((Part001.updateParticles noise4D beat spikes).positions.length
        = (Part001.updateParticles noise4D beat spikes).colors.length
      ∧ (Part001.updateParticles noise4D beat spikes).positions.length % 3 = 0
      ∧ (Part001.updateParticles noise4D beat spikes).positions.length
          ≤ 2 * 3 * spikes.length
      ∧ (∀ (spike : SparkPoint) (rest : List SparkPoint),
          (Part001.updateParticles noise4D beat (spike :: rest)).positions.length
              = (Part001.updateParticles noise4D beat rest).positions.length
            ∨ (Part001.updateParticles noise4D beat (spike :: rest)).positions.length
              = (Part001.updateParticles noise4D beat rest).positions.length + 3
            ∨ (Part001.updateParticles noise4D beat (spike :: rest)).positions.length
              = (Part001.updateParticles noise4D beat rest).positions.length + 6)
      ∧ ∀ pad : List ℚ,
          ((Part001.updateParticles noise4D beat spikes).positions ++ pad).take
              (Part001.updateParticles noise4D beat spikes).positions.length
            = (Part001.updateParticles noise4D beat spikes).positions) := by
  obtain ⟨hA1, hA2, hA3⟩ := part000_pack_length noise4D beat spikes
  obtain ⟨hB1, hB2, hB3⟩ := part001_pack_length noise4D beat spikes
  refine ⟨⟨hA1, hA2, hA3, ?_, fun pad => List.take_left _ _⟩,
    ⟨hB1, hB2, hB3, ?_, fun pad => List.take_left _ _⟩⟩
  · intro spike rest
    simp only [Part000.updateParticles]
    split_ifs <;> simp [List.length_append]
  · intro spike rest
    simp only [Part001.updateParticles]
    split_ifs <;> simp [List.length_append]

/-- Helper: `render` never touches the last-render timestamp; that field is
written only by the `animate` callback itself. -/
theorem part000_render_lastRenderTime (noise4D : Noise4D)
    (st : Part000.LoopState) (time : ℚ) :
    (Part000.render noise4D st time).lastRenderTime = st.lastRenderTime := by
  unfold Part000.render
  split_ifs <;> rfl

/-- C8: in the animation loop, when the elapsed time since the last executed
frame is strictly below `FRAME_SKIP_THRESHOLD`, the callback leaves the
whole loop state (spark set, output buffers, live mesh, timestamp)
unchanged; and the last-render timestamp is set to the current time exactly
when the animation is running, the threshold was reached, and the render
call completed — otherwise it is unchanged. -/
theorem C8_frame_skip_no_update (noise4D : Noise4D) (frameOk : Bool)
    (st : Part000.LoopState) (currentTime : ℚ) :
    (currentTime - st.lastRenderTime < FRAME_SKIP_THRESHOLD →
      Part000.animate noise4D frameOk st currentTime = st)
    ∧ (Part000.animate noise4D frameOk st currentTime).lastRenderTime
        = if st.isAnimating = true
            ∧ ¬ currentTime - st.lastRenderTime < FRAME_SKIP_THRESHOLD
            ∧ frameOk = true
          then currentTime else st.lastRenderTime := by
  constructor
  · intro h
    simp only [Part000.animate]
    split_ifs <;> rfl
  · by_cases h1 : st.isAnimating <;>
      by_cases h2 : currentTime - st.lastRenderTime < FRAME_SKIP_THRESHOLD <;>
        by_cases h3 : frameOk <;>
          simp [Part000.animate, h1, h2, h3, part000_render_lastRenderTime]

/-- Concrete loop state for the C8 witness: animating, heart loaded, last
render at time `0`. -/
def loopStateW : Part000.LoopState :=
  ⟨true, true, false, 0, ⟨0⟩, [], [], [], [], []⟩

/-- Witness for C8: a callback arriving 5 ms after the last executed frame
(below the 16 ms threshold) leaves the loop state untouched. -/
theorem C8_frame_skip_no_update_witness :
    Part000.animate zeroNoise true loopStateW 5 = loopStateW :=
  (C8_frame_skip_no_update zeroNoise true loopStateW 5).1
    (by norm_num [loopStateW, FRAME_SKIP_THRESHOLD])

end HeartAnim
